import Mathlib

/-!
Verification development for the meetly recording subsystem
(`src/recordings/recording_manager.py`, `src/recordings/recording_bot.py`,
`src/recordings/core/rtc_peer.py`, `src/recordings/core/signaling_client.py`).

The Python sources are shallowly embedded: dictionaries become insertion-ordered
association lists (matching CPython dict semantics: replacing an existing key
keeps its position, a new key is appended), the filesystem becomes a map from
path to byte list, each effectful subprocess step becomes an oracle value in an
environment record, and Python exceptions become an explicit `Except` layer.
-/

set_option autoImplicit false

deriving instance DecidableEq for Except

namespace Meetly

/-- Model of a Python exception object: the constructor is the exception class,
the payload its message / offending name. -/
inductive PyExc where
  | nameError (name : String)
  | typeError (msg : String)
  | connectionClosed
  | other (typeName : String) (msg : String)
deriving DecidableEq, Repr

/-- `type(e).__name__` for the modelled exception classes. -/
def PyExc.typeName : PyExc → String
  | .nameError _ => "NameError"
  | .typeError _ => "TypeError"
  | .connectionClosed => "ConnectionClosed"
  | .other n _ => n

/-- `str(e)` for the modelled exception classes. -/
def PyExc.message : PyExc → String
  | .nameError n => String.append "name \x27" (String.append n "\x27 is not defined")
  | .typeError m => m
  | .connectionClosed => "connection is closed"
  | .other _ m => m

/-- `needle` is a leading segment of `hay` (structural, over character
lists, so that concrete instances compute by kernel reduction). -/
def charsStartWith : List Char → List Char → Bool
  | _, [] => true
  | [], _ :: _ => false
  | a :: as, b :: bs => a == b && charsStartWith as bs

/-- `needle` occurs somewhere in `hay` (character lists). -/
def charsContain (hay needle : List Char) : Bool :=
  match hay with
  | [] => needle.isEmpty
  | _ :: rest => charsStartWith hay needle || charsContain rest needle

/-- Python substring test `needle in hay`. -/
def strContains (hay needle : String) : Bool :=
  charsContain hay.data needle.data

/-- Python `s.startswith(t)`. -/
def strStartsWith (s t : String) : Bool :=
  charsStartWith s.data t.data

/-- ASCII lowercasing of one character (`str.lower` over the ASCII range the
track labels use). -/
def lowerChar (c : Char) : Char :=
  if 65 ≤ c.toNat ∧ c.toNat ≤ 90 then Char.ofNat (c.toNat + 32) else c

/-- Python `s.lower()`. -/
def strToLower (s : String) : String :=
  ⟨s.data.map lowerChar⟩

/-- Insertion-ordered dictionary, the shallow embedding of a CPython `dict`. -/
abbrev Dict (α : Type) := List (String × α)

/-- `d[k]` lookup returning `none` when absent. -/
def dictGet {α : Type} (d : Dict α) (k : String) : Option α :=
  (d.find? (fun p => p.1 == k)).map (fun p => p.2)

/-- `d[k] = v`: replace in place when the key exists, append otherwise
(CPython insertion-order semantics). -/
def dictSet {α : Type} (d : Dict α) (k : String) (v : α) : Dict α :=
  if d.any (fun p => p.1 == k) then
    d.map (fun p => if p.1 == k then (k, v) else p)
  else
    d ++ [(k, v)]

/-- Key membership `k in d`. -/
def dictHas {α : Type} (d : Dict α) (k : String) : Bool :=
  d.any (fun p => p.1 == k)

/-- `d.pop(k, None)` / `del d[k]` on a dict with unique keys. -/
def dictErase {α : Type} (d : Dict α) (k : String) : Dict α :=
  d.filter (fun p => p.1 != k)

/-- The keys of a dictionary are pairwise distinct (every reachable CPython
dict satisfies this). -/
def KeysNodup {α : Type} (d : Dict α) : Prop :=
  (d.map (fun p => p.1)).Nodup

instance {α : Type} (d : Dict α) : Decidable (KeysNodup d) := by
  unfold KeysNodup; infer_instance

/-- The filesystem: a map from path to the file's bytes. -/
abbrev Fs := Dict (List Nat)

/-- `os.path.exists p && os.path.getsize p > floor` for a given size floor. -/
def usableFile (fs : Fs) (p : String) (floor : Nat) : Bool :=
  match dictGet fs p with
  | some bytes => floor < bytes.length
  | none => false

/-- `os.remove` wrapped in `try/except pass` (recording_manager.py lines 110-115):
erase the path if present, never fail. -/
def fsRemove (fs : Fs) (p : String) : Fs :=
  dictErase fs p

/-- Writing a file at a path (creation or truncating overwrite). -/
def fsWrite (fs : Fs) (p : String) (bytes : List Nat) : Fs :=
  dictSet fs p bytes

/-! ## RecordingManager data model (recording_manager.py) -/

/-- One entry of `active_recordings[user_id]`: `{"filename": ..., "process": ...}`.
Processes are opaque handles (their exit is awaited with all errors swallowed,
so only their presence matters to the model). -/
structure TrackRec where
  filename : Option String
  process : Option Nat
deriving DecidableEq, Repr

/-- `active_recordings[user_id]`: track key (e.g. `"audio"`, `"camera_<id>"`,
`"screenshare_<id>"`) to recording entry. -/
abbrev UserRecs := Dict TrackRec

/-- The mutable state of a `RecordingManager` instance. -/
structure RMState where
  output_dir : String
  is_recording : Bool
  active_recordings : Dict UserRecs
deriving DecidableEq, Repr

/-- `os.path.join(output_dir, name)`. -/
def pathJoin (dir name : String) : String :=
  String.append dir (String.append "/" name)

/-- The names bound at module level of recording_manager.py by its import
statements (lines 1-11: `os`, `asyncio`, `time`, `wave`, `Optional`,
`BlobServiceClient`, `AzureError`, `numpy as np`). Notably `math` is absent. -/
def moduleNames : List String :=
  ["os", "asyncio", "time", "wave", "Optional", "BlobServiceClient", "AzureError", "np"]

/-- Python name resolution at use time: referencing a global name that is not
bound in the module namespace raises `NameError`. -/
def resolveName (n : String) : Except PyExc Unit :=
  if n ∈ moduleNames then .ok () else .error (.nameError n)

/-- `start_recording` (lines 22-25): set the flag (idempotent). -/
def start_recording (s : RMState) : RMState :=
  if s.is_recording then s else { s with is_recording := true }

/-- `(track_key, filename)` pairs of every stored recording entry, in dict
iteration order (stop's gather loop, lines 63-76, visits them in this order). -/
def registryFiles (s : RMState) : List (String × String) :=
  s.active_recordings.flatMap (fun u =>
    u.2.filterMap (fun tr => tr.2.filename.map (fun f => (tr.1, f))))

/-- The usable audio files: track key contains `"audio"`, file exists and its
size exceeds the 44-byte floor (a bare WAV header), in gather order. -/
def gatherAudio (s : RMState) (fs : Fs) : List String :=
  ((registryFiles s).filter
    (fun kf => strContains kf.1 "audio" && usableFile fs kf.2 44)).map (fun kf => kf.2)

/-- The usable video files: track key does not contain `"audio"`, file exists
and its size exceeds the 1024-byte floor, in gather order. -/
def gatherVideo (s : RMState) (fs : Fs) : List String :=
  ((registryFiles s).filter
    (fun kf => !strContains kf.1 "audio" && usableFile fs kf.2 1024)).map (fun kf => kf.2)

/-- Outcome of the final composition ffmpeg invocation (`_compose_video`
lines 469-483): normal exit with the artifact's bytes, wall-clock timeout
(process killed, `None` returned), non-zero exit (`None` returned), or an
exception raised while spawning/communicating. -/
inductive ComposeRes where
  | success (bytes : List Nat)
  | timeout
  | exitFail
  | raised (e : PyExc)
deriving DecidableEq, Repr

/-- Oracle for every effectful step of the stop pipeline: outcomes of the
mixing and composition subprocesses and the timestamp-fresh paths they write. -/
structure StopEnv where
  /-- outcomes of awaiting the recorded ffmpeg processes (all swallowed) -/
  waitOutcomes : List (Except PyExc Unit)
  /-- exception raised by the amix subprocess interaction, if any -/
  mixExc : Option PyExc
  /-- amix subprocess exited with code 0 -/
  mixOk : Bool
  /-- `mixed_audio_<epoch>.wav` path chosen by `_merge_audio_tracks` -/
  mixedPath : String
  /-- bytes of the mixed file when mixing succeeds -/
  mixedBytes : List Nat
  /-- outcome of the composition subprocess -/
  composeRes : ComposeRes
  /-- `final_recording_<epoch>.mp4` path chosen by `_compose_video` -/
  finalPath : String
deriving DecidableEq, Repr

/-- Lines 48-61: await every collected process and close stdins; each step is
wrapped in `try/except` that logs and continues, so no outcome escapes. -/
def drainProcesses (outcomes : List (Except PyExc Unit)) : Unit :=
  outcomes.foldl (fun _ o => match o with | .ok _ => () | .error _ => ()) ()

/-- The video layout `_compose_video` builds (lines 432-454). -/
inductive Layout where
  | fullFrame
  | sideBySide
  | grid (cols rows : Nat)
deriving DecidableEq, Repr

/-- `ceil(sqrt n)` over the naturals. -/
def ceilSqrt (n : Nat) : Nat :=
  if Nat.sqrt n * Nat.sqrt n == n then Nat.sqrt n else Nat.sqrt n + 1

/-- The layout branch of `_compose_video` (lines 433-454): one input is scaled
full frame, two are split left/right, and the `else` branch evaluates
`math.ceil(math.sqrt(num_videos))` — which first resolves the global name
`math`, raising `NameError` when it is unbound. -/
def buildLayout (numVideos : Nat) : Except PyExc Layout :=
  if numVideos == 1 then .ok .fullFrame
  else if numVideos == 2 then .ok .sideBySide
  else
    match resolveName "math" with
    | .error e => .error e
    | .ok _ =>
      let cols := ceilSqrt numVideos
      .ok (.grid cols ((numVideos + cols - 1) / cols))

/-- `_merge_audio_tracks` (lines 364-402): empty input returns `None`; a single
file is passed through unchanged; several files are mixed by an ffmpeg amix
subprocess whose `communicate` may raise and whose non-zero exit yields `None`.
Returns (raised-or-result, filesystem after). -/
def mergeAudioTracks (audioFiles : List String) (fs : Fs) (env : StopEnv) :
    Except PyExc (Option String) × Fs :=
  match audioFiles with
  | [] => (.ok none, fs)
  | [f] => (.ok (some f), fs)
  | _ =>
    match env.mixExc with
    | some e => (.error e, fs)
    | none =>
      if env.mixOk then (.ok (some env.mixedPath), fsWrite fs env.mixedPath env.mixedBytes)
      else (.ok none, fs)

/-- `_compose_video` (lines 405-483): empty input returns `None`; otherwise the
filter graph (including the layout) is built — raising `NameError` for more
than two inputs since `math` is unbound — and the ffmpeg subprocess runs with a
60s timeout. `audioPath` is muxed into the output when present; it only shapes
the artifact's bytes, which the oracle supplies. Returns
(raised-or-result, filesystem after). -/
def composeVideo (videoFiles : List String) (audioPath : Option String) (fs : Fs)
    (env : StopEnv) : Except PyExc (Option String) × Fs :=
  match videoFiles, audioPath with
  | [], _ => (.ok none, fs)
  | _, _ =>
    match buildLayout videoFiles.length with
    | .error e => (.error e, fs)
    | .ok _ =>
      match env.composeRes with
      | .raised e => (.error e, fs)
      | .timeout => (.ok none, fs)
      | .exitFail => (.ok none, fs)
      | .success bytes => (.ok (some env.finalPath), fsWrite fs env.finalPath bytes)

/-- `stop_recording_and_compose`'s result together with the state, filesystem
and which pipeline stages were invoked. A `.error` result is an exception
escaping the corresponding block. -/
structure StopOut where
  result : Except PyExc String
  state : RMState
  fs : Fs
  mergeCalled : Bool
  composeCalled : Bool
deriving DecidableEq, Repr

/-- Line 100: `mixed_audio_path if mixed_audio_path else (audio_files[0] if
audio_files else None)`. -/
def audioForCompose (mixed : Option String) (audioFiles : List String) : Option String :=
  match mixed with
  | some m => some m
  | none => audioFiles.head?

/-- Line 104-108: the cleanup list — every gathered per-track file, plus the
mixed-audio intermediate when it is a distinct path. -/
def cleanupList (audioFiles videoFiles : List String) (mixed : Option String) :
    List String :=
  let base := audioFiles ++ videoFiles
  base ++ (match mixed with
           | some m => if m ∈ base then [] else [m]
           | none => [])

/-- The `try:` block of `stop_recording_and_compose` (lines 38-126), entered
with `is_recording` already cleared: drain processes, gather usable files,
clear the registry, mix, compose, delete intermediates, and return the final
path or a failure string. A `.error` result models an exception escaping the
block (caught by the caller's catch-all). -/
def stopBody (s : RMState) (fs : Fs) (env : StopEnv) : StopOut :=
  let _ := drainProcesses env.waitOutcomes
  let audioFiles := gatherAudio s fs
  let videoFiles := gatherVideo s fs
  let s1 : RMState := { s with active_recordings := [] }
  if audioFiles.isEmpty && videoFiles.isEmpty then
    ⟨.ok "Recording failed: No usable audio or video files captured.", s1, fs, false, false⟩
  else
    let mergeStep : Except PyExc (Option String) × Fs × Bool :=
      if audioFiles.isEmpty then (.ok none, fs, false)
      else
        let m := mergeAudioTracks audioFiles fs env
        (m.1, m.2, true)
    match mergeStep with
    | (.error e, fs1, mc) => ⟨.error e, s1, fs1, mc, false⟩
    | (.ok mixed, fs1, mc) =>
      if !audioFiles.isEmpty && mixed.isNone then
        ⟨.ok "Recording failed: Could not mix audio tracks.", s1, fs1, mc, false⟩
      else
        let composeStep : Except PyExc (Option String) × Fs × Bool :=
          if videoFiles.isEmpty then (.ok none, fs1, false)
          else
            let c := composeVideo videoFiles (audioForCompose mixed audioFiles) fs1 env
            (c.1, c.2, true)
        match composeStep with
        | (.error e, fs2, cc) => ⟨.error e, s1, fs2, mc, cc⟩
        | (.ok finalOpt, fs2, cc) =>
          let fs3 := (cleanupList audioFiles videoFiles mixed).foldl fsRemove fs2
          match finalOpt with
          | some p => ⟨.ok p, s1, fs3, mc, cc⟩
          | none => ⟨.ok "Composition failed.", s1, fs3, mc, cc⟩

/-- The message built by the catch-all handler (lines 128-131). -/
def internalErrorMsg (e : PyExc) : String :=
  String.append "Internal error during finalize: "
    (String.append e.typeName (String.append ": " e.message))

/-- The catch-all `except Exception` of lines 128-131: an exception escaping
the body is converted into the internal-error result string. -/
def catchAll (out : StopOut) : StopOut :=
  match out.result with
  | .ok r => { out with result := .ok r }
  | .error e => { out with result := .ok (internalErrorMsg e) }

/-- `stop_recording_and_compose` (lines 27-131): early-return when not
recording; otherwise clear the flag *before the first suspension point*
(line 36; the first `await` is `proc.wait()` at line 52), run the body, and
convert any escaping exception into a result string. -/
def stop_recording_and_compose (s : RMState) (fs : Fs) (env : StopEnv) : StopOut :=
  if !s.is_recording then ⟨.ok "No recording was active.", s, fs, false, false⟩
  else catchAll (stopBody { s with is_recording := false } fs env)

/-! ## Track intake (recording_manager.py lines 134-289) -/

/-- `if user_id not in self.active_recordings: self.active_recordings[user_id] = {}`. -/
def ensureUser (s : RMState) (user : String) : RMState :=
  if dictHas s.active_recordings user then s
  else { s with active_recordings := s.active_recordings ++ [(user, [])] }

/-- Replace the given user's track dictionary. -/
def setUserEntry (s : RMState) (user : String) (key : String) (rec : TrackRec) : RMState :=
  { s with active_recordings :=
      dictSet s.active_recordings user (dictSet (dictGet s.active_recordings user |>.getD []) key rec) }

/-- The synchronous part of `add_audio_track` (lines 147-153, 254-255): refuse
when not recording (registry and filesystem untouched, no task spawned);
otherwise ensure the user's dict exists and spawn the writer task, whose target
filename is returned. -/
def add_audio_track (s : RMState) (fs : Fs) (user : String) (epoch : Nat) :
    RMState × Fs × Option String :=
  if !s.is_recording then (s, fs, none)
  else
    let filename := pathJoin s.output_dir
      (String.append user (String.append "_" (String.append (toString epoch) "_audio.wav")))
    (ensureUser s user, fs, some filename)

/-- The audio writer's registry store (line 215), executed once the first frame
arrived: `self.active_recordings[user_id]["audio"] = {"filename": filename}` —
a fixed `"audio"` key per user. -/
def registerAudioEntry (s : RMState) (user : String) (filename : String) : RMState :=
  setUserEntry s user "audio" ⟨some filename, none⟩

/-- Label heuristic shared by `add_video_track` (line 272) and the bot's
`_on_new_track` (line 79): the lowercase label contains `"screen"`,
`"display"` or `"share"`. -/
def labelIsScreen (lbl : String) : Bool :=
  strContains lbl "screen" || strContains lbl "display" || strContains lbl "share"

/-- The `track_type` heuristic of `add_video_track` (lines 268-280): an
explicit type wins; otherwise a screen-like label means screenshare; otherwise
a stored key starting with `"video_"` or `"camera_"` means the new track is a
screenshare; otherwise camera. -/
def resolveTrackType (explicit : Option String) (label : String)
    (existingKeys : List String) : String :=
  match explicit with
  | some t => t
  | none =>
    let lbl := strToLower label
    if labelIsScreen lbl then "screenshare"
    else if existingKeys.any (fun k => strStartsWith k "video_" || strStartsWith k "camera_") then
      "screenshare"
    else "camera"

/-- `track_key = f"{track_type}_{track.id}"` (line 282). -/
def videoTrackKey (ttype trackId : String) : String :=
  String.append ttype (String.append "_" trackId)

/-- The synchronous part of `add_video_track` (lines 257-289): refuse when not
recording; otherwise ensure the user, resolve the track type, build the track
key, and store the placeholder entry before spawning the recording task.
Returns the stored key. -/
def add_video_track (s : RMState) (fs : Fs) (user trackId label : String)
    (explicit : Option String) : RMState × Fs × Option String :=
  if !s.is_recording then (s, fs, none)
  else
    let s1 := ensureUser s user
    let keys := (dictGet s1.active_recordings user |>.getD []).map (fun p => p.1)
    let ttype := resolveTrackType explicit label keys
    let trackKey := videoTrackKey ttype trackId
    let filename := pathJoin s.output_dir
      (String.append user (String.append "_" (String.append trackKey ".mkv")))
    (setUserEntry s1 user trackKey ⟨some filename, none⟩, fs, some trackKey)

/-! ## Inbound track classification (recording_bot.py lines 64-92) -/

/-- `_on_new_track`'s video branch (lines 77-89): classify from the lowercase
label alone and pass the result as the *explicit* `track_type` to
`add_video_track`. -/
def botClassify (label : String) : String :=
  if labelIsScreen (strToLower label) then "screenshare" else "camera"

/-- End-to-end type a video track receives on the inbound path: the bot always
supplies an explicit label-derived type, so `add_video_track`'s ordinal
fallback is bypassed. -/
def inboundVideoType (label : String) (existingKeys : List String) : String :=
  resolveTrackType (some (botClassify label)) label existingKeys

/-! ## Peer connection registry (core/rtc_peer.py) -/

/-- Connection lifecycle states of an `RTCPeerConnection`. -/
inductive ConnState where
  | new
  | connecting
  | connected
  | failed
  | disconnected
  | closed
deriving DecidableEq, Repr

/-- Line 34: `pc.connectionState in ("failed", "closed", "disconnected")`. -/
def ConnState.isTerminal : ConnState → Bool
  | .failed => true
  | .closed => true
  | .disconnected => true
  | _ => false

/-- `self.peers`: remote peer id to connection handle. -/
abbrev Peers := Dict Nat

/-- `create_peer` (lines 16-19): return the existing connection when one is
registered, else register a fresh one. (`fresh` is the handle of the newly
constructed `RTCPeerConnection`.) -/
def create_peer (peers : Peers) (peerId : String) (fresh : Nat) : Peers × Nat :=
  match dictGet peers peerId with
  | some pc => (peers, pc)
  | none => (peers ++ [(peerId, fresh)], fresh)

/-- The `connectionstatechange` handler (lines 31-37): on a terminal state, if
the peer id is still registered, close that connection and
`self.peers.pop(peer_id, None)`. -/
def on_connectionstatechange (peers : Peers) (peerId : String) (st : ConnState) : Peers :=
  if st.isTerminal then
    if dictHas peers peerId then dictErase peers peerId else peers
  else peers

/-! ## Signaling client (core/signaling_client.py) -/

/-- The `SignalingClient` state: whether `self.ws` is set and the
`_is_connected` flag. -/
structure SigState where
  hasWs : Bool
  connected : Bool
deriving DecidableEq, Repr

/-- Outcome of the `try:` block of `send` (lines 57-58):
`json.dumps(data)` followed by `await self.ws.send(...)` — `.ok` on success,
`.error e` when either step raises `e` (serialization `TypeError`, a closed
connection, or any other transport failure). -/
abbrev SendAttempt := Except PyExc Unit

/-- `send` (lines 54-61): no-op unless `self.ws` is set and `_is_connected`;
otherwise run the attempt, catching *only* `ConnectionClosed` (which clears
the connected flag); every other exception escapes to the caller. -/
def SigState.send (st : SigState) (attempt : SendAttempt) : Except PyExc SigState :=
  if st.hasWs && st.connected then
    match attempt with
    | .ok _ => .ok st
    | .error .connectionClosed => .ok { st with connected := false }
    | .error e => .error e
  else .ok st

end Meetly


namespace Meetly

/-! ## Dictionary lemmas -/

theorem dictGet_cons {α : Type} (a : String × α) (d : Dict α) (k : String) :
    dictGet (a :: d) k = if a.1 == k then some a.2 else dictGet d k := by
  by_cases h : a.1 == k <;> simp [dictGet, List.find?, h]

theorem dictErase_cons {α : Type} (a : String × α) (d : Dict α) (k : String) :
    dictErase (a :: d) k = if a.1 == k then dictErase d k else a :: dictErase d k := by
  unfold dictErase
  rw [List.filter_cons]
  by_cases h : a.1 == k <;> simp [h, bne]

theorem dictGet_map_repl {α : Type} (d : Dict α) (k : String) (v : α)
    (h : d.any (fun p => p.1 == k) = true) :
    dictGet (d.map (fun p => if p.1 == k then (k, v) else p)) k = some v := by
  induction d with
  | nil => simp at h
  | cons hd tl ih =>
    rw [List.map_cons]
    by_cases hhd : hd.1 == k
    · rw [if_pos hhd, dictGet_cons]
      simp
    · rw [if_neg hhd, dictGet_cons, if_neg hhd]
      apply ih
      simpa [hhd] using h

theorem dictGet_none_append {α : Type} (d : Dict α) (k : String) (v : α)
    (h : d.any (fun p => p.1 == k) = false) :
    dictGet (d ++ [(k, v)]) k = some v := by
  induction d with
  | nil =>
    rw [List.nil_append, dictGet_cons]
    simp
  | cons hd tl ih =>
    simp only [List.any_cons, Bool.or_eq_false_iff] at h
    rw [List.cons_append, dictGet_cons, if_neg (by simp [h.1])]
    exact ih h.2

theorem dictGet_set_self {α : Type} (d : Dict α) (k : String) (v : α) :
    dictGet (dictSet d k v) k = some v := by
  unfold dictSet
  by_cases hany : d.any (fun p => p.1 == k)
  · rw [if_pos hany]
    exact dictGet_map_repl d k v hany
  · rw [if_neg hany]
    exact dictGet_none_append d k v (Bool.eq_false_iff.mpr hany)

theorem dictGet_map_repl_ne {α : Type} (d : Dict α) (k k2 : String) (v : α) (h : k2 ≠ k) :
    dictGet (d.map (fun p => if p.1 == k then (k, v) else p)) k2 = dictGet d k2 := by
  induction d with
  | nil => rfl
  | cons hd tl ih =>
    rw [List.map_cons]
    by_cases hhd : hd.1 == k
    · have h1 : (k == k2) = false := by
        simp only [beq_eq_false_iff_ne, ne_eq]
        exact fun hc => h hc.symm
      have h2 : (hd.1 == k2) = false := by
        simp only [beq_eq_false_iff_ne, ne_eq]
        intro hc
        exact h (hc.symm.trans (beq_iff_eq.mp hhd))
      rw [if_pos hhd, dictGet_cons, dictGet_cons, if_neg (by simp [h1]), if_neg (by simp [h2])]
      exact ih
    · rw [if_neg hhd, dictGet_cons, dictGet_cons]
      by_cases h2 : hd.1 == k2
      · rw [if_pos h2, if_pos h2]
      · rw [if_neg h2, if_neg h2]
        exact ih

theorem dictGet_append_ne {α : Type} (d : Dict α) (k k2 : String) (v : α) (h : k2 ≠ k) :
    dictGet (d ++ [(k, v)]) k2 = dictGet d k2 := by
  induction d with
  | nil =>
    have hkk : (k == k2) = false := beq_eq_false_iff_ne.mpr (fun hc => h hc.symm)
    rw [List.nil_append, dictGet_cons, if_neg (by simp [hkk])]
  | cons hd tl ih =>
    rw [List.cons_append, dictGet_cons, dictGet_cons]
    by_cases h2 : hd.1 == k2
    · rw [if_pos h2, if_pos h2]
    · rw [if_neg h2, if_neg h2]
      exact ih

theorem dictGet_set_ne {α : Type} (d : Dict α) (k k2 : String) (v : α) (h : k2 ≠ k) :
    dictGet (dictSet d k v) k2 = dictGet d k2 := by
  unfold dictSet
  by_cases hany : d.any (fun p => p.1 == k)
  · rw [if_pos hany]
    exact dictGet_map_repl_ne d k k2 v h
  · rw [if_neg hany]
    exact dictGet_append_ne d k k2 v h

theorem dictGet_erase_self {α : Type} (d : Dict α) (k : String) :
    dictGet (dictErase d k) k = none := by
  induction d with
  | nil => rfl
  | cons hd tl ih =>
    rw [dictErase_cons]
    by_cases h : hd.1 == k
    · rw [if_pos h]
      exact ih
    · rw [if_neg h, dictGet_cons, if_neg h]
      exact ih

theorem dictHas_erase_self {α : Type} (d : Dict α) (k : String) :
    dictHas (dictErase d k) k = false := by
  induction d with
  | nil => rfl
  | cons hd tl ih =>
    rw [dictErase_cons]
    by_cases h : hd.1 == k
    · rw [if_pos h]
      exact ih
    · rw [if_neg h]
      simpa [dictHas, h] using ih

theorem dictErase_idem {α : Type} (d : Dict α) (k : String) :
    dictErase (dictErase d k) k = dictErase d k := by
  induction d with
  | nil => rfl
  | cons hd tl ih =>
    rw [dictErase_cons]
    by_cases h : hd.1 == k
    · rw [if_pos h]
      exact ih
    · rw [if_neg h, dictErase_cons, if_neg h, ih]

theorem keysNodup_erase {α : Type} (d : Dict α) (k : String) (h : KeysNodup d) :
    KeysNodup (dictErase d k) := by
  unfold KeysNodup dictErase at *
  exact ((List.filter_sublist d).map (fun p => p.1)).nodup h

theorem keysNodup_set {α : Type} (d : Dict α) (k : String) (v : α) (h : KeysNodup d) :
    KeysNodup (dictSet d k v) := by
  unfold dictSet
  by_cases hany : d.any (fun p => p.1 == k)
  · rw [if_pos hany]
    unfold KeysNodup at *
    have hmap : (d.map (fun p => if p.1 == k then (k, v) else p)).map (fun p => p.1)
        = d.map (fun p => p.1) := by
      rw [List.map_map]
      apply List.map_congr_left
      intro p _
      by_cases hp : p.1 = k <;> simp [hp]
    rw [hmap]
    exact h
  · rw [if_neg hany]
    unfold KeysNodup at *
    rw [List.map_append, List.nodup_append]
    refine ⟨h, by simp, ?_⟩
    intro a ha
    simp only [List.map_cons, List.map_nil, List.mem_singleton]
    intro hak
    subst hak
    simp only [List.mem_map] at ha
    obtain ⟨p, hp, hpk⟩ := ha
    exact hany (List.any_eq_true.mpr ⟨p, hp, beq_iff_eq.mpr hpk⟩)

theorem countKey_le_one {α : Type} (d : Dict α) (k : String) (h : KeysNodup d) :
    (d.filter (fun p => p.1 == k)).length ≤ 1 := by
  induction d with
  | nil => simp
  | cons hd tl ih =>
    unfold KeysNodup at h
    simp only [List.map_cons, List.nodup_cons] at h
    rw [List.filter_cons]
    by_cases hhd : hd.1 == k
    · rw [if_pos hhd]
      have hnil : tl.filter (fun p => p.1 == k) = [] := by
        rw [List.filter_eq_nil_iff]
        intro p hp hc
        apply h.1
        rw [List.mem_map]
        refine ⟨p, hp, ?_⟩
        have h1 : p.1 = k := by simpa [beq_iff_eq] using hc
        have h2 : hd.1 = k := by simpa [beq_iff_eq] using hhd
        rw [h1, h2]
      simp [hnil]
    · rw [if_neg hhd]
      exact ih h.2

end Meetly

namespace Meetly

/-! ## Filesystem and pipeline lemmas -/

theorem dictGet_erase_ne {α : Type} (d : Dict α) (k k2 : String) (h : k2 ≠ k) :
    dictGet (dictErase d k) k2 = dictGet d k2 := by
  induction d with
  | nil => rfl
  | cons hd tl ih =>
    rw [dictErase_cons]
    by_cases hhd : hd.1 == k
    · rw [if_pos hhd, dictGet_cons,
        if_neg (by
          simp only [beq_iff_eq]
          intro hc
          exact h (hc.symm.trans (beq_iff_eq.mp hhd)))]
      exact ih
    · rw [if_neg hhd, dictGet_cons, dictGet_cons]
      by_cases h2 : hd.1 == k2
      · rw [if_pos h2, if_pos h2]
      · rw [if_neg h2, if_neg h2]
        exact ih

theorem foldl_fsRemove_get (files : List String) (fs : Fs) (p : String) :
    dictGet (files.foldl fsRemove fs) p = if p ∈ files then none else dictGet fs p := by
  induction files generalizing fs with
  | nil => simp
  | cons f rest ih =>
    rw [List.foldl_cons, ih]
    by_cases hp : p ∈ rest
    · simp [hp]
    · by_cases hpf : p = f
      · subst hpf
        simp [hp, fsRemove, dictGet_erase_self]
      · simp only [List.mem_cons, hp, or_false, hpf, if_false]
        exact dictGet_erase_ne fs f p hpf

theorem catchAll_state (out : StopOut) : (catchAll out).state = out.state := by
  unfold catchAll
  cases out.result <;> rfl

theorem catchAll_fs (out : StopOut) : (catchAll out).fs = out.fs := by
  unfold catchAll
  cases out.result <;> rfl

theorem catchAll_composeCalled (out : StopOut) :
    (catchAll out).composeCalled = out.composeCalled := by
  unfold catchAll
  cases out.result <;> rfl

theorem catchAll_result (out : StopOut) :
    (catchAll out).result = match out.result with
      | .ok r => .ok r
      | .error e => .ok (internalErrorMsg e) := by
  unfold catchAll
  cases out.result <;> rfl

theorem stopBody_state (s : RMState) (fs : Fs) (env : StopEnv) :
    (stopBody s fs env).state = { s with active_recordings := [] } := by
  unfold stopBody
  dsimp only
  split
  · rfl
  · split
    · rfl
    · split
      · rfl
      · split
        · rfl
        · split <;> rfl

theorem stop_eq_of_recording (s : RMState) (fs : Fs) (env : StopEnv)
    (h : s.is_recording = true) :
    stop_recording_and_compose s fs env
      = catchAll (stopBody { s with is_recording := false } fs env) := by
  unfold stop_recording_and_compose
  rw [h]
  rfl

theorem stop_eq_of_not_recording (s : RMState) (fs : Fs) (env : StopEnv)
    (h : s.is_recording = false) :
    stop_recording_and_compose s fs env
      = ⟨.ok "No recording was active.", s, fs, false, false⟩ := by
  unfold stop_recording_and_compose
  rw [h]
  rfl

end Meetly

namespace Meetly

theorem dictGet_eq_none_iff {α : Type} (d : Dict α) (k : String) :
    dictGet d k = none ↔ d.any (fun p => p.1 == k) = false := by
  unfold dictGet
  rw [Option.map_eq_none', List.find?_eq_none, List.any_eq_false]

/-! ## Claim theorems -/

/-- Claim C2: for every manager state, filesystem state, and behaviour of the
subprocess/mixing/composition environment — including any internal exception
raised inside the stop pipeline — `stop_recording_and_compose` terminates with
an `ok` string result; no exception escapes to the caller. -/
theorem C2_stop_never_raises (s : RMState) (fs : Fs) (env : StopEnv) :
    ∃ msg : String, (stop_recording_and_compose s fs env).result = Except.ok msg := by
  by_cases h : s.is_recording
  · rw [stop_eq_of_recording s fs env h, catchAll_result]
    cases hres : (stopBody { s with is_recording := false } fs env).result with
    | ok r => exact ⟨r, rfl⟩
    | error e => exact ⟨internalErrorMsg e, rfl⟩
  · rw [stop_eq_of_not_recording s fs env (Bool.eq_false_iff.mpr h)]
    exact ⟨"No recording was active.", rfl⟩

/-- Claim C3 (code bug): the grid-layout branch of `_compose_video` is not
total. For one and two inputs it produces the specified full-frame and
side-by-side layouts, but for every input count above two (witnessed at 3 and
at 5) the branch evaluates `math.ceil(math.sqrt(...))` and raises `NameError`,
because recording_manager.py never imports `math`. -/
theorem C3_grid_layout_name_error :
    buildLayout 1 = Except.ok Layout.fullFrame
    ∧ buildLayout 2 = Except.ok Layout.sideBySide
    ∧ buildLayout 3 = Except.error (PyExc.nameError "math")
    ∧ buildLayout 5 = Except.error (PyExc.nameError "math") :=
  ⟨rfl, rfl, rfl, rfl⟩

/-- Claim C9: a stop call that begins while recording clears `is_recording`
in its synchronous prologue (before the first `await`), the body never sets it
back on any path, and once the flag is down both intake operations return
without touching the registry, the filesystem, or spawning a task. -/
theorem C9_stop_halts_intake (s : RMState) (fs : Fs) (env : StopEnv)
    (h : s.is_recording = true) :
    (stop_recording_and_compose s fs env).state.is_recording = false
    ∧ (∀ (s2 : RMState) (fs2 : Fs) (env2 : StopEnv), s2.is_recording = false →
        (stopBody s2 fs2 env2).state.is_recording = false)
    ∧ (∀ (s2 : RMState) (fs2 : Fs) (u : String) (epoch : Nat), s2.is_recording = false →
        add_audio_track s2 fs2 u epoch = (s2, fs2, none))
    ∧ (∀ (s2 : RMState) (fs2 : Fs) (u tid lbl : String) (ex : Option String),
        s2.is_recording = false →
        add_video_track s2 fs2 u tid lbl ex = (s2, fs2, none)) := by
  refine ⟨?_, ?_, ?_, ?_⟩
  · rw [stop_eq_of_recording s fs env h, catchAll_state, stopBody_state]
  · intro s2 fs2 env2 h2
    rw [stopBody_state]
    exact h2
  · intro s2 fs2 u epoch h2
    simp [add_audio_track, h2]
  · intro s2 fs2 u tid lbl ex h2
    simp [add_video_track, h2]

/-- Witness for C9 at a concrete recording state. -/
theorem C9_stop_halts_intake_witness :
    (stop_recording_and_compose ⟨"recordings", true, []⟩ []
        ⟨[], none, true, "m.wav", [], ComposeRes.timeout, "f.mp4"⟩).state.is_recording = false
    ∧ (∀ (s2 : RMState) (fs2 : Fs) (env2 : StopEnv), s2.is_recording = false →
        (stopBody s2 fs2 env2).state.is_recording = false)
    ∧ (∀ (s2 : RMState) (fs2 : Fs) (u : String) (epoch : Nat), s2.is_recording = false →
        add_audio_track s2 fs2 u epoch = (s2, fs2, none))
    ∧ (∀ (s2 : RMState) (fs2 : Fs) (u tid lbl : String) (ex : Option String),
        s2.is_recording = false →
        add_video_track s2 fs2 u tid lbl ex = (s2, fs2, none)) :=
  C9_stop_halts_intake ⟨"recordings", true, []⟩ []
    ⟨[], none, true, "m.wav", [], ComposeRes.timeout, "f.mp4"⟩ rfl

/-- Claim C7: the peer registry keeps at most one entry per peer id
(unique keys are preserved by both operations), `create_peer` is idempotent
when an entry exists, a terminal connection-state transition removes the
peer's entry, and that removal is idempotent. -/
theorem C7_peer_registry (peers : Peers) (pid : String) (fresh pc : Nat) (st : ConnState)
    (hnd : KeysNodup peers) :
    KeysNodup (create_peer peers pid fresh).1
    ∧ (dictGet peers pid = some pc → create_peer peers pid fresh = (peers, pc))
    ∧ KeysNodup (on_connectionstatechange peers pid st)
    ∧ (st.isTerminal = true → dictGet (on_connectionstatechange peers pid st) pid = none)
    ∧ on_connectionstatechange (on_connectionstatechange peers pid st) pid st
        = on_connectionstatechange peers pid st := by
  refine ⟨?_, ?_, ?_, ?_, ?_⟩
  · unfold create_peer
    cases hget : dictGet peers pid with
    | some c => exact hnd
    | none =>
      have hany : peers.any (fun p => p.1 == pid) = false := (dictGet_eq_none_iff _ _).mp hget
      have heq : peers ++ [(pid, fresh)] = dictSet peers pid fresh := by
        unfold dictSet
        rw [if_neg (by simp [hany])]
      dsimp only
      rw [heq]
      exact keysNodup_set peers pid fresh hnd
  · intro hget
    unfold create_peer
    rw [hget]
  · unfold on_connectionstatechange
    by_cases ht : st.isTerminal
    · rw [if_pos ht]
      by_cases hh : dictHas peers pid
      · rw [if_pos hh]
        exact keysNodup_erase peers pid hnd
      · rw [if_neg hh]
        exact hnd
    · rw [if_neg ht]
      exact hnd
  · intro ht
    unfold on_connectionstatechange
    rw [if_pos ht]
    by_cases hh : dictHas peers pid
    · rw [if_pos hh]
      exact dictGet_erase_self peers pid
    · rw [if_neg hh]
      exact (dictGet_eq_none_iff _ _).mpr (Bool.eq_false_iff.mpr hh)
  · unfold on_connectionstatechange
    by_cases ht : st.isTerminal
    · rw [if_pos ht]
      by_cases hh : dictHas peers pid
      · rw [if_pos hh, if_pos ht, if_neg (by simp [dictHas_erase_self])]
      · rw [if_neg hh, if_pos ht, if_neg hh]
    · rw [if_neg ht, if_neg ht]

/-- Witness for C7 at a registry holding one connected peer. -/
theorem C7_peer_registry_witness :
    KeysNodup (create_peer [("alice", 1)] "alice" 2).1
    ∧ (dictGet [("alice", 1)] "alice" = some 1 →
        create_peer [("alice", 1)] "alice" 2 = ([("alice", 1)], 1))
    ∧ KeysNodup (on_connectionstatechange [("alice", 1)] "alice" ConnState.failed)
    ∧ (ConnState.failed.isTerminal = true →
        dictGet (on_connectionstatechange [("alice", 1)] "alice" ConnState.failed) "alice" = none)
    ∧ on_connectionstatechange
        (on_connectionstatechange [("alice", 1)] "alice" ConnState.failed)
        "alice" ConnState.failed
      = on_connectionstatechange [("alice", 1)] "alice" ConnState.failed :=
  C7_peer_registry [("alice", 1)] "alice" 2 1 ConnState.failed (by decide)

/-- Claim C8 (counterexample): `send` is not exception-free for every message
and transport state. With the transport open, an attempt that raises anything
other than `ConnectionClosed` — here the `TypeError` that `json.dumps` raises
on an unserializable payload — escapes to the caller. -/
theorem C8_send_counterexample :
    SigState.send ⟨true, true⟩
        (Except.error (PyExc.typeError "Object of type set is not JSON serializable"))
      = Except.error (PyExc.typeError "Object of type set is not JSON serializable") := rfl

/-- Claim C8 (amended): `send` silently no-ops whenever the transport is not
currently open, and it does not raise when the attempt either succeeds or
fails with `ConnectionClosed` — the one exception class the handler catches,
which clears the connected flag; any other exception propagates
(see the counterexample). -/
theorem C8_send_amended (st stB : SigState) (attempt attB : SendAttempt)
    (hclosed : (st.hasWs && st.connected) = false)
    (hbenign : attB = Except.ok () ∨ attB = Except.error PyExc.connectionClosed) :
    SigState.send st attempt = Except.ok st
    ∧ ∃ r : SigState, SigState.send stB attB = Except.ok r := by
  constructor
  · unfold SigState.send
    rw [if_neg (by simp [hclosed])]
  · unfold SigState.send
    by_cases hopen : (stB.hasWs && stB.connected) = true
    · rw [if_pos hopen]
      rcases hbenign with hb | hb <;> rw [hb]
      · exact ⟨stB, rfl⟩
      · exact ⟨{ stB with connected := false }, rfl⟩
    · rw [if_neg hopen]
      exact ⟨stB, rfl⟩

/-- Witness for the amended C8: a closed transport and an open transport whose
attempt hits `ConnectionClosed`. -/
theorem C8_send_amended_witness :
    SigState.send ⟨true, false⟩ (Except.error (PyExc.typeError "boom")) = Except.ok ⟨true, false⟩
    ∧ ∃ r : SigState,
        SigState.send ⟨true, true⟩ (Except.error PyExc.connectionClosed) = Except.ok r :=
  C8_send_amended ⟨true, false⟩ ⟨true, true⟩ (Except.error (PyExc.typeError "boom"))
    (Except.error PyExc.connectionClosed) (by decide) (Or.inr rfl)

end Meetly

namespace Meetly

/-- Claim C6 (counterexample): on the inbound path (`_on_new_track` →
`add_video_track`) the bot always passes an explicit, label-derived type, so
the ordinal fallback never fires: a peer's *second* video track with an empty
label, arriving while a camera entry is already stored, is classified
`"camera"`, not `"screenshare"`. -/
theorem C6_classification_counterexample :
    inboundVideoType "" ["camera_track1"] = "camera"
    ∧ inboundVideoType "" ["camera_track1"] ≠ "screenshare" := by
  refine ⟨rfl, ?_⟩
  decide

/-- Claim C6 (amended): a label containing "screen"/"display"/"share" is
classified screenshare on the inbound path; *every* other inbound video track
is classified camera regardless of ordinal position, because the bot always
passes an explicit label-derived type. The ordinal fallback (first unlabeled
track camera, later track screenshare once a camera/video key is stored)
exists only in `add_video_track` when no explicit type is supplied. -/
theorem C6_classification_amended (label1 label2 label3 : String)
    (keys1 keys2 keys3 : List String)
    (h1 : labelIsScreen (strToLower label1) = true)
    (h2 : labelIsScreen (strToLower label2) = false)
    (h3 : labelIsScreen (strToLower label3) = false)
    (hk3 : keys3.any (fun k => strStartsWith k "video_" || strStartsWith k "camera_") = true) :
    inboundVideoType label1 keys1 = "screenshare"
    ∧ inboundVideoType label2 keys2 = "camera"
    ∧ resolveTrackType none label3 [] = "camera"
    ∧ resolveTrackType none label3 keys3 = "screenshare" := by
  refine ⟨?_, ?_, ?_, ?_⟩
  · simp [inboundVideoType, botClassify, resolveTrackType, h1]
  · simp [inboundVideoType, botClassify, resolveTrackType, h2]
  · simp [resolveTrackType, h3]
  · simp [resolveTrackType, h3, hk3]

/-- Witness for the amended C6: a labelled screen share, an unlabeled track,
and the direct-call fallback with and without a stored camera key. -/
theorem C6_classification_amended_witness :
    inboundVideoType "primary-screen-share" ["camera_t1"] = "screenshare"
    ∧ inboundVideoType "" ["camera_t1"] = "camera"
    ∧ resolveTrackType none "" [] = "camera"
    ∧ resolveTrackType none "" ["camera_t1"] = "screenshare" :=
  C6_classification_amended "primary-screen-share" "" "" ["camera_t1"] ["camera_t1"]
    ["camera_t1"] (by decide) (by decide) (by decide) (by decide)

/-- The per-user track dictionary `self.active_recordings[user_id]`. -/
def userDict (s : RMState) (user : String) : UserRecs :=
  (dictGet s.active_recordings user).getD []

theorem userDict_setUserEntry (s : RMState) (user k : String) (v : TrackRec) :
    userDict (setUserEntry s user k v) user = dictSet (userDict s user) k v := by
  unfold userDict setUserEntry
  dsimp only
  rw [dictGet_set_self]
  rfl

theorem videoTrackKey_data (t trackId : String) :
    (videoTrackKey t trackId).data = t.data ++ '_' :: trackId.data := by
  show (t ++ ("_" ++ trackId)).data = t.data ++ '_' :: trackId.data
  rw [String.data_append, String.data_append]
  rfl

/-- Keys built from a camera/screenshare type and distinct track ids are
distinct strings. -/
theorem videoTrackKey_ne (t1 t2 id1 id2 : String)
    (h1 : t1 = "camera" ∨ t1 = "screenshare")
    (h2 : t2 = "camera" ∨ t2 = "screenshare")
    (hid : id1 ≠ id2) :
    videoTrackKey t1 id1 ≠ videoTrackKey t2 id2 := by
  intro heq
  have hdata : (videoTrackKey t1 id1).data = (videoTrackKey t2 id2).data := by rw [heq]
  rw [videoTrackKey_data, videoTrackKey_data] at hdata
  rcases h1 with h1 | h1 <;> rcases h2 with h2 | h2 <;> subst h1 <;> subst h2
  · have hcancel := List.append_cancel_left hdata
    injection hcancel with _ htail
    exact hid (String.ext htail)
  · rw [show ("camera" : String).data = ['c', 'a', 'm', 'e', 'r', 'a'] from rfl,
      show ("screenshare" : String).data
          = ['s', 'c', 'r', 'e', 'e', 'n', 's', 'h', 'a', 'r', 'e'] from rfl] at hdata
    simp only [List.cons_append, List.nil_append] at hdata
    injection hdata with hhead _
    exact absurd hhead (by decide)
  · rw [show ("camera" : String).data = ['c', 'a', 'm', 'e', 'r', 'a'] from rfl,
      show ("screenshare" : String).data
          = ['s', 'c', 'r', 'e', 'e', 'n', 's', 'h', 'a', 'r', 'e'] from rfl] at hdata
    simp only [List.cons_append, List.nil_append] at hdata
    injection hdata with hhead _
    exact absurd hhead (by decide)
  · have hcancel := List.append_cancel_left hdata
    injection hcancel with _ htail
    exact hid (String.ext htail)

/-- Claim C10: per peer, audio is stored under the fixed key `"audio"` — a
second audio registration overwrites the first and the dictionary holds at
most one `"audio"` entry — while video placeholders are keyed by resolved
type plus the track's unique id, so registrations for distinct track ids
never overwrite one another. -/
theorem C10_registry_keys (s : RMState) (user f1 f2 t1 t2 id1 id2 : String)
    (v1 v2 : TrackRec)
    (hnd : KeysNodup (userDict s user))
    (h1 : t1 = "camera" ∨ t1 = "screenshare")
    (h2 : t2 = "camera" ∨ t2 = "screenshare")
    (hid : id1 ≠ id2) :
    dictGet (userDict (registerAudioEntry (registerAudioEntry s user f1) user f2) user) "audio"
        = some ⟨some f2, none⟩
    ∧ ((userDict (registerAudioEntry (registerAudioEntry s user f1) user f2) user).filter
        (fun p => p.1 == "audio")).length ≤ 1
    ∧ videoTrackKey t1 id1 ≠ videoTrackKey t2 id2
    ∧ dictGet (userDict (setUserEntry (setUserEntry s user (videoTrackKey t1 id1) v1)
          user (videoTrackKey t2 id2) v2) user) (videoTrackKey t1 id1) = some v1
    ∧ dictGet (userDict (setUserEntry (setUserEntry s user (videoTrackKey t1 id1) v1)
          user (videoTrackKey t2 id2) v2) user) (videoTrackKey t2 id2) = some v2 := by
  have hkey := videoTrackKey_ne t1 t2 id1 id2 h1 h2 hid
  have haud : userDict (registerAudioEntry (registerAudioEntry s user f1) user f2) user
      = dictSet (dictSet (userDict s user) "audio" ⟨some f1, none⟩) "audio" ⟨some f2, none⟩ := by
    unfold registerAudioEntry
    rw [userDict_setUserEntry, userDict_setUserEntry]
  have hvid : userDict (setUserEntry (setUserEntry s user (videoTrackKey t1 id1) v1)
        user (videoTrackKey t2 id2) v2) user
      = dictSet (dictSet (userDict s user) (videoTrackKey t1 id1) v1)
          (videoTrackKey t2 id2) v2 := by
    rw [userDict_setUserEntry, userDict_setUserEntry]
  refine ⟨?_, ?_, hkey, ?_, ?_⟩
  · rw [haud, dictGet_set_self]
  · rw [haud]
    exact countKey_le_one _ _
      (keysNodup_set _ _ _ (keysNodup_set _ _ _ hnd))
  · rw [hvid, dictGet_set_ne _ _ _ _ hkey, dictGet_set_self]
  · rw [hvid, dictGet_set_self]

/-- Witness for C10: one peer registering two audio tracks and two video
tracks with distinct track ids. -/
theorem C10_registry_keys_witness :
    dictGet (userDict (registerAudioEntry
          (registerAudioEntry ⟨"recordings", true, []⟩ "alice" "a1.wav") "alice" "a2.wav")
        "alice") "audio" = some ⟨some "a2.wav", none⟩
    ∧ ((userDict (registerAudioEntry
          (registerAudioEntry ⟨"recordings", true, []⟩ "alice" "a1.wav") "alice" "a2.wav")
        "alice").filter (fun p => p.1 == "audio")).length ≤ 1
    ∧ videoTrackKey "camera" "t1" ≠ videoTrackKey "screenshare" "t2"
    ∧ dictGet (userDict (setUserEntry
          (setUserEntry ⟨"recordings", true, []⟩ "alice" (videoTrackKey "camera" "t1")
            ⟨some "v1.mkv", none⟩)
          "alice" (videoTrackKey "screenshare" "t2") ⟨some "v2.mkv", none⟩)
        "alice") (videoTrackKey "camera" "t1") = some ⟨some "v1.mkv", none⟩
    ∧ dictGet (userDict (setUserEntry
          (setUserEntry ⟨"recordings", true, []⟩ "alice" (videoTrackKey "camera" "t1")
            ⟨some "v1.mkv", none⟩)
          "alice" (videoTrackKey "screenshare" "t2") ⟨some "v2.mkv", none⟩)
        "alice") (videoTrackKey "screenshare" "t2") = some ⟨some "v2.mkv", none⟩ :=
  C10_registry_keys ⟨"recordings", true, []⟩ "alice" "a1.wav" "a2.wav"
    "camera" "screenshare" "t1" "t2" ⟨some "v1.mkv", none⟩ ⟨some "v2.mkv", none⟩
    (by decide) (Or.inl rfl) (Or.inr rfl) (by decide)

end Meetly

namespace Meetly

/-! ## Stop-pipeline scenario lemmas -/

theorem gatherAudio_flag (s : RMState) (fs : Fs) :
    gatherAudio { s with is_recording := false } fs = gatherAudio s fs := rfl

theorem gatherVideo_flag (s : RMState) (fs : Fs) :
    gatherVideo { s with is_recording := false } fs = gatherVideo s fs := rfl

theorem stopBody_no_usable (s : RMState) (fs : Fs) (env : StopEnv)
    (ha : gatherAudio s fs = []) (hv : gatherVideo s fs = []) :
    stopBody s fs env =
      ⟨.ok "Recording failed: No usable audio or video files captured.",
        { s with active_recordings := [] }, fs, false, false⟩ := by
  simp [stopBody, ha, hv]

theorem stopBody_single_audio_no_video (s : RMState) (fs : Fs) (env : StopEnv) (a : String)
    (ha : gatherAudio s fs = [a]) (hv : gatherVideo s fs = []) :
    stopBody s fs env =
      ⟨.ok "Composition failed.", { s with active_recordings := [] },
        fsRemove fs a, true, false⟩ := by
  simp [stopBody, ha, hv, mergeAudioTracks, cleanupList]

theorem stopBody_multi_audio_no_video_raise (s : RMState) (fs : Fs) (env : StopEnv)
    (a b : String) (rest : List String) (e : PyExc)
    (ha : gatherAudio s fs = a :: b :: rest) (hv : gatherVideo s fs = [])
    (hmx : env.mixExc = some e) :
    stopBody s fs env =
      ⟨.error e, { s with active_recordings := [] }, fs, true, false⟩ := by
  simp [stopBody, ha, hv, mergeAudioTracks, hmx]

theorem stopBody_multi_audio_no_video_mixfail (s : RMState) (fs : Fs) (env : StopEnv)
    (a b : String) (rest : List String)
    (ha : gatherAudio s fs = a :: b :: rest) (hv : gatherVideo s fs = [])
    (hmx : env.mixExc = none) (hok : env.mixOk = false) :
    stopBody s fs env =
      ⟨.ok "Recording failed: Could not mix audio tracks.",
        { s with active_recordings := [] }, fs, true, false⟩ := by
  simp [stopBody, ha, hv, mergeAudioTracks, hmx, hok]

theorem stopBody_multi_audio_no_video_mixok (s : RMState) (fs : Fs) (env : StopEnv)
    (a b : String) (rest : List String)
    (ha : gatherAudio s fs = a :: b :: rest) (hv : gatherVideo s fs = [])
    (hmx : env.mixExc = none) (hok : env.mixOk = true) :
    stopBody s fs env =
      ⟨.ok "Composition failed.", { s with active_recordings := [] },
        (cleanupList (a :: b :: rest) [] (some env.mixedPath)).foldl fsRemove
          (fsWrite fs env.mixedPath env.mixedBytes), true, false⟩ := by
  simp [stopBody, ha, hv, mergeAudioTracks, hmx, hok]

theorem stopBody_video_only (s : RMState) (fs : Fs) (env : StopEnv) (v : String)
    (vrest : List String)
    (ha : gatherAudio s fs = []) (hv : gatherVideo s fs = v :: vrest) :
    stopBody s fs env =
      match composeVideo (v :: vrest) none fs env with
      | (.error e, fs2) =>
          ⟨.error e, { s with active_recordings := [] }, fs2, false, true⟩
      | (.ok (some p), fs2) =>
          ⟨.ok p, { s with active_recordings := [] },
            (cleanupList [] (v :: vrest) none).foldl fsRemove fs2, false, true⟩
      | (.ok none, fs2) =>
          ⟨.ok "Composition failed.", { s with active_recordings := [] },
            (cleanupList [] (v :: vrest) none).foldl fsRemove fs2, false, true⟩ := by
  rcases hc : composeVideo (v :: vrest) none fs env with ⟨res, fs2⟩
  cases res with
  | error e => simp [stopBody, ha, hv, audioForCompose, hc]
  | ok o =>
    cases o with
    | some p => simp [stopBody, ha, hv, audioForCompose, hc]
    | none => simp [stopBody, ha, hv, audioForCompose, hc]

theorem stopBody_audio_video (s : RMState) (fs : Fs) (env : StopEnv)
    (a : String) (arest : List String) (v : String) (vrest : List String)
    (m : String) (fs1 : Fs)
    (ha : gatherAudio s fs = a :: arest) (hv : gatherVideo s fs = v :: vrest)
    (hmerge : mergeAudioTracks (a :: arest) fs env = (.ok (some m), fs1)) :
    stopBody s fs env =
      match composeVideo (v :: vrest) (some m) fs1 env with
      | (.error e, fs2) =>
          ⟨.error e, { s with active_recordings := [] }, fs2, true, true⟩
      | (.ok (some p), fs2) =>
          ⟨.ok p, { s with active_recordings := [] },
            (cleanupList (a :: arest) (v :: vrest) (some m)).foldl fsRemove fs2, true, true⟩
      | (.ok none, fs2) =>
          ⟨.ok "Composition failed.", { s with active_recordings := [] },
            (cleanupList (a :: arest) (v :: vrest) (some m)).foldl fsRemove fs2, true, true⟩ := by
  rcases hc : composeVideo (v :: vrest) (some m) fs1 env with ⟨res, fs2⟩
  cases res with
  | error e => simp [stopBody, ha, hv, hmerge, audioForCompose, hc]
  | ok o =>
    cases o with
    | some p => simp [stopBody, ha, hv, hmerge, audioForCompose, hc]
    | none => simp [stopBody, ha, hv, hmerge, audioForCompose, hc]

theorem merge_single (a : String) (fs : Fs) (env : StopEnv) :
    mergeAudioTracks [a] fs env = (.ok (some a), fs) := rfl

theorem merge_multi_ok (a b : String) (rest : List String) (fs : Fs) (env : StopEnv)
    (hmx : env.mixExc = none) (hok : env.mixOk = true) :
    mergeAudioTracks (a :: b :: rest) fs env
      = (.ok (some env.mixedPath), fsWrite fs env.mixedPath env.mixedBytes) := by
  simp [mergeAudioTracks, hmx, hok]

theorem composeVideo_small (vs : List String) (au : Option String) (fs : Fs) (env : StopEnv)
    (h1 : vs.length = 1 ∨ vs.length = 2) :
    composeVideo vs au fs env =
      match env.composeRes with
      | .raised e => (.error e, fs)
      | .timeout => (.ok none, fs)
      | .exitFail => (.ok none, fs)
      | .success bytes => (.ok (some env.finalPath), fsWrite fs env.finalPath bytes) := by
  have hlay : ∃ l, buildLayout vs.length = .ok l := by
    rcases h1 with h | h <;> rw [h]
    · exact ⟨.fullFrame, rfl⟩
    · exact ⟨.sideBySide, rfl⟩
  obtain ⟨l, hlay⟩ := hlay
  cases vs with
  | nil => simp at h1
  | cons v vrest =>
    simp only [List.length_cons] at hlay
    cases henv : env.composeRes <;> simp [composeVideo, henv, hlay]

theorem mem_cleanupList_base (as vs : List String) (m : Option String) (f : String)
    (hf : f ∈ as ++ vs) : f ∈ cleanupList as vs m := by
  unfold cleanupList
  exact List.mem_append_left _ hf

theorem mixed_mem_cleanupList (as vs : List String) (m : String) :
    m ∈ cleanupList as vs (some m) := by
  unfold cleanupList
  by_cases h : m ∈ as ++ vs
  · exact List.mem_append_left _ h
  · refine List.mem_append_right _ ?_
    simp [h]

theorem not_mem_cleanupList (as vs : List String) (m : Option String) (p : String)
    (h1 : p ∉ as) (h2 : p ∉ vs) (h3 : ∀ x, m = some x → p ≠ x) :
    p ∉ cleanupList as vs m := by
  unfold cleanupList
  intro hmem
  rcases List.mem_append.mp hmem with hb | he
  · rcases List.mem_append.mp hb with h | h
    · exact h1 h
    · exact h2 h
  · cases m with
    | none => simp at he
    | some x =>
      by_cases hx : x ∈ as ++ vs
      · simp [hx] at he
      · simp [hx] at he
        exact h3 x rfl he

end Meetly

namespace Meetly

/-- Claim C1 (counterexample): a stopped session with exactly one usable
audio file and no video never reaches composition, yet returns the failure
string "Composition failed." instead of an artifact path — and deletes the
audio file as an intermediate, leaving the filesystem empty, so no valid
single-file audio artifact exists at all. -/
theorem C1_audio_only_counterexample :
    stop_recording_and_compose
        ⟨"recordings", true, [("alice", [("audio", ⟨some "a.wav", none⟩)])]⟩
        [("a.wav", List.replicate 100 7)]
        ⟨[], none, true, "mix.wav", [], ComposeRes.success [1, 2, 3], "final.mp4"⟩
      = ⟨Except.ok "Composition failed.", ⟨"recordings", false, []⟩, [], true, false⟩ := by
  decide

/-- Claim C1 (amended): stopping an audio-only session (N ≥ 1 usable audio
files, zero usable video files) indeed never invokes the video composition
path, but it does not return an artifact: the result is "Composition failed."
(or the mix-failure string, or the caught-exception string when mixing
raises), and with exactly one usable audio file the result is exactly
"Composition failed." while that file is deleted as an intermediate. A single
audio file does pass through `_merge_audio_tracks` unchanged (no remix). -/
theorem C1_audio_only_amended (s : RMState) (fs : Fs) (env : StopEnv)
    (hrec : s.is_recording = true)
    (ha : gatherAudio s fs ≠ []) (hv : gatherVideo s fs = []) :
    (stop_recording_and_compose s fs env).composeCalled = false
    ∧ ((stop_recording_and_compose s fs env).result = Except.ok "Composition failed."
      ∨ (stop_recording_and_compose s fs env).result
          = Except.ok "Recording failed: Could not mix audio tracks."
      ∨ ∃ e, (stop_recording_and_compose s fs env).result = Except.ok (internalErrorMsg e))
    ∧ (∀ a, gatherAudio s fs = [a] →
        (stop_recording_and_compose s fs env).result = Except.ok "Composition failed."
        ∧ dictGet (stop_recording_and_compose s fs env).fs a = none)
    ∧ (∀ (a : String) (fs2 : Fs), mergeAudioTracks [a] fs2 env = (.ok (some a), fs2)) := by
  have hstop := stop_eq_of_recording s fs env hrec
  have hv2 : gatherVideo { s with is_recording := false } fs = [] := by
    rw [gatherVideo_flag]
    exact hv
  obtain ⟨a, arest, hA⟩ : ∃ x xs, gatherAudio s fs = x :: xs := by
    cases hg : gatherAudio s fs with
    | nil => exact absurd hg ha
    | cons x xs => exact ⟨x, xs, rfl⟩
  have hA2 : gatherAudio { s with is_recording := false } fs = a :: arest := by
    rw [gatherAudio_flag]
    exact hA
  cases arest with
  | nil =>
    have hb := stopBody_single_audio_no_video _ fs env a hA2 hv2
    rw [hstop, hb]
    refine ⟨by simp [catchAll], Or.inl (by simp [catchAll]), ?_, fun x fs2 => rfl⟩
    intro a2 hA3
    rw [hA] at hA3
    have haa : a = a2 := by injection hA3
    subst haa
    refine ⟨by simp [catchAll], ?_⟩
    simp only [catchAll]
    exact dictGet_erase_self fs a
  | cons b brest =>
    have hconj3 : ∀ a2, gatherAudio s fs = [a2] →
        (catchAll (stopBody { s with is_recording := false } fs env)).result
            = Except.ok "Composition failed."
        ∧ dictGet (catchAll (stopBody { s with is_recording := false } fs env)).fs a2
            = none := by
      intro a2 hA3
      rw [hA] at hA3
      simp at hA3
    cases hmx : env.mixExc with
    | some e =>
      have hb := stopBody_multi_audio_no_video_raise _ fs env a b brest e hA2 hv2 hmx
      rw [hstop, hb]
      rw [hb] at hconj3
      exact ⟨by simp [catchAll], Or.inr (Or.inr ⟨e, by simp [catchAll]⟩), hconj3,
        fun x fs2 => rfl⟩
    | none =>
      cases hok : env.mixOk with
      | false =>
        have hb := stopBody_multi_audio_no_video_mixfail _ fs env a b brest hA2 hv2 hmx hok
        rw [hstop, hb]
        rw [hb] at hconj3
        exact ⟨by simp [catchAll], Or.inr (Or.inl (by simp [catchAll])), hconj3,
          fun x fs2 => rfl⟩
      | true =>
        have hb := stopBody_multi_audio_no_video_mixok _ fs env a b brest hA2 hv2 hmx hok
        rw [hstop, hb]
        rw [hb] at hconj3
        exact ⟨by simp [catchAll], Or.inl (by simp [catchAll]), hconj3,
          fun x fs2 => rfl⟩

/-- Witness for the amended C1: one usable audio file, no video. -/
theorem C1_audio_only_amended_witness :
    (stop_recording_and_compose
        ⟨"recordings", true, [("alice", [("audio", ⟨some "a.wav", none⟩)])]⟩
        [("a.wav", List.replicate 100 7)]
        ⟨[], none, true, "mix.wav", [], ComposeRes.success [1, 2, 3], "final.mp4"⟩).composeCalled
      = false
    ∧ ((stop_recording_and_compose
        ⟨"recordings", true, [("alice", [("audio", ⟨some "a.wav", none⟩)])]⟩
        [("a.wav", List.replicate 100 7)]
        ⟨[], none, true, "mix.wav", [], ComposeRes.success [1, 2, 3], "final.mp4"⟩).result
          = Except.ok "Composition failed."
      ∨ (stop_recording_and_compose
        ⟨"recordings", true, [("alice", [("audio", ⟨some "a.wav", none⟩)])]⟩
        [("a.wav", List.replicate 100 7)]
        ⟨[], none, true, "mix.wav", [], ComposeRes.success [1, 2, 3], "final.mp4"⟩).result
          = Except.ok "Recording failed: Could not mix audio tracks."
      ∨ ∃ e, (stop_recording_and_compose
        ⟨"recordings", true, [("alice", [("audio", ⟨some "a.wav", none⟩)])]⟩
        [("a.wav", List.replicate 100 7)]
        ⟨[], none, true, "mix.wav", [], ComposeRes.success [1, 2, 3], "final.mp4"⟩).result
          = Except.ok (internalErrorMsg e))
    ∧ (∀ a, gatherAudio ⟨"recordings", true, [("alice", [("audio", ⟨some "a.wav", none⟩)])]⟩
          [("a.wav", List.replicate 100 7)] = [a] →
        (stop_recording_and_compose
          ⟨"recordings", true, [("alice", [("audio", ⟨some "a.wav", none⟩)])]⟩
          [("a.wav", List.replicate 100 7)]
          ⟨[], none, true, "mix.wav", [], ComposeRes.success [1, 2, 3], "final.mp4"⟩).result
            = Except.ok "Composition failed."
        ∧ dictGet (stop_recording_and_compose
          ⟨"recordings", true, [("alice", [("audio", ⟨some "a.wav", none⟩)])]⟩
          [("a.wav", List.replicate 100 7)]
          ⟨[], none, true, "mix.wav", [], ComposeRes.success [1, 2, 3], "final.mp4"⟩).fs a
            = none)
    ∧ (∀ (a : String) (fs2 : Fs), mergeAudioTracks [a] fs2
        ⟨[], none, true, "mix.wav", [], ComposeRes.success [1, 2, 3], "final.mp4"⟩
          = (.ok (some a), fs2)) :=
  C1_audio_only_amended
    ⟨"recordings", true, [("alice", [("audio", ⟨some "a.wav", none⟩)])]⟩
    [("a.wav", List.replicate 100 7)]
    ⟨[], none, true, "mix.wav", [], ComposeRes.success [1, 2, 3], "final.mp4"⟩
    rfl (by decide) (by decide)

end Meetly

namespace Meetly

/-- Claim C5 (counterexample): with a single captured audio file of exactly
the 44-byte header floor, the first stop reports the no-usable-media failure,
but a repeated stop call does not report the same failure — it returns
"No recording was active.". -/
theorem C5_idempotence_counterexample :
    stop_recording_and_compose
        ⟨"recordings", true, [("alice", [("audio", ⟨some "a.wav", none⟩)])]⟩
        [("a.wav", List.replicate 44 0)]
        ⟨[], none, true, "mix.wav", [], ComposeRes.timeout, "final.mp4"⟩
      = ⟨Except.ok "Recording failed: No usable audio or video files captured.",
          ⟨"recordings", false, []⟩, [("a.wav", List.replicate 44 0)], false, false⟩
    ∧ (stop_recording_and_compose ⟨"recordings", false, []⟩
          [("a.wav", List.replicate 44 0)]
          ⟨[], none, true, "mix.wav", [], ComposeRes.timeout, "final.mp4"⟩).result
        = Except.ok "No recording was active."
    ∧ ("No recording was active." : String)
        ≠ "Recording failed: No usable audio or video files captured." := by
  refine ⟨by decide, rfl, by decide⟩

/-- Stopping a freshly restarted manager with an empty registry reports the
no-usable-media failure. -/
theorem stop_empty_registry (s : RMState) (fs : Fs) (env : StopEnv)
    (hempty : s.active_recordings = []) (hrec : s.is_recording = true) :
    (stop_recording_and_compose s fs env).result
      = Except.ok "Recording failed: No usable audio or video files captured." := by
  have hA : gatherAudio s fs = [] := by
    unfold gatherAudio registryFiles
    rw [hempty]
    rfl
  have hV : gatherVideo s fs = [] := by
    unfold gatherVideo registryFiles
    rw [hempty]
    rfl
  rw [stop_eq_of_recording s fs env hrec,
    stopBody_no_usable _ fs env (by rw [gatherAudio_flag]; exact hA)
      (by rw [gatherVideo_flag]; exact hV)]
  simp [catchAll]

/-- Claim C5 (amended): captured files at or below their size floors are
treated as absent, and a session whose files are all below the floors reports
the no-usable-media failure without touching the filesystem; but repeated stop
calls are *not* idempotent in their failure report — every repeat returns
"No recording was active." instead, and the original failure recurs only if
recording is restarted in between (the registry having been cleared). -/
theorem C5_below_floor_amended (s : RMState) (fs : Fs) (env env2 env3 : StopEnv)
    (hrec : s.is_recording = true)
    (hbelow : ∀ kf ∈ registryFiles s,
      (strContains kf.1 "audio" = true → usableFile fs kf.2 44 = false)
      ∧ (strContains kf.1 "audio" = false → usableFile fs kf.2 1024 = false)) :
    (stop_recording_and_compose s fs env).result
        = Except.ok "Recording failed: No usable audio or video files captured."
    ∧ (stop_recording_and_compose s fs env).fs = fs
    ∧ (stop_recording_and_compose (stop_recording_and_compose s fs env).state fs env2).result
        = Except.ok "No recording was active."
    ∧ (stop_recording_and_compose
          (start_recording (stop_recording_and_compose s fs env).state) fs env3).result
        = Except.ok "Recording failed: No usable audio or video files captured." := by
  have hA : gatherAudio s fs = [] := by
    unfold gatherAudio
    rw [List.filter_eq_nil_iff.mpr ?_]
    · rfl
    intro kf hkf
    rcases hbelow kf hkf with ⟨hb1, _⟩
    cases hc : strContains kf.1 "audio"
    · simp [hc]
    · simp [hc, hb1 hc]
  have hV : gatherVideo s fs = [] := by
    unfold gatherVideo
    rw [List.filter_eq_nil_iff.mpr ?_]
    · rfl
    intro kf hkf
    rcases hbelow kf hkf with ⟨_, hb2⟩
    cases hc : strContains kf.1 "audio"
    · simp [hc, hb2 hc]
    · simp [hc]
  have hb := stopBody_no_usable { s with is_recording := false } fs env
    (by rw [gatherAudio_flag]; exact hA) (by rw [gatherVideo_flag]; exact hV)
  have e1 := stop_eq_of_recording s fs env hrec
  rw [e1, hb]
  refine ⟨by simp [catchAll], by simp [catchAll], ?_, ?_⟩
  · simp only [catchAll]
    rw [stop_eq_of_not_recording _ fs env2 rfl]
  · simp only [catchAll]
    exact stop_empty_registry _ fs env3 rfl rfl

set_option maxRecDepth 8192 in
/-- Witness for the amended C5: one audio file of exactly 44 bytes and one
video file of exactly 1024 bytes, both at their floors. -/
theorem C5_below_floor_amended_witness :
    (stop_recording_and_compose
        ⟨"recordings", true, [("alice", [("audio", ⟨some "a.wav", none⟩),
          ("camera_t1", ⟨some "v.mkv", none⟩)])]⟩
        [("a.wav", List.replicate 44 0), ("v.mkv", List.replicate 1024 0)]
        ⟨[], none, true, "mix.wav", [], ComposeRes.timeout, "final.mp4"⟩).result
        = Except.ok "Recording failed: No usable audio or video files captured."
    ∧ (stop_recording_and_compose
        ⟨"recordings", true, [("alice", [("audio", ⟨some "a.wav", none⟩),
          ("camera_t1", ⟨some "v.mkv", none⟩)])]⟩
        [("a.wav", List.replicate 44 0), ("v.mkv", List.replicate 1024 0)]
        ⟨[], none, true, "mix.wav", [], ComposeRes.timeout, "final.mp4"⟩).fs
        = [("a.wav", List.replicate 44 0), ("v.mkv", List.replicate 1024 0)]
    ∧ (stop_recording_and_compose
        (stop_recording_and_compose
          ⟨"recordings", true, [("alice", [("audio", ⟨some "a.wav", none⟩),
            ("camera_t1", ⟨some "v.mkv", none⟩)])]⟩
          [("a.wav", List.replicate 44 0), ("v.mkv", List.replicate 1024 0)]
          ⟨[], none, true, "mix.wav", [], ComposeRes.timeout, "final.mp4"⟩).state
        [("a.wav", List.replicate 44 0), ("v.mkv", List.replicate 1024 0)]
        ⟨[], none, false, "mix2.wav", [], ComposeRes.exitFail, "final2.mp4"⟩).result
        = Except.ok "No recording was active."
    ∧ (stop_recording_and_compose
        (start_recording (stop_recording_and_compose
          ⟨"recordings", true, [("alice", [("audio", ⟨some "a.wav", none⟩),
            ("camera_t1", ⟨some "v.mkv", none⟩)])]⟩
          [("a.wav", List.replicate 44 0), ("v.mkv", List.replicate 1024 0)]
          ⟨[], none, true, "mix.wav", [], ComposeRes.timeout, "final.mp4"⟩).state)
        [("a.wav", List.replicate 44 0), ("v.mkv", List.replicate 1024 0)]
        ⟨[], none, true, "mix3.wav", [], ComposeRes.timeout, "final3.mp4"⟩).result
        = Except.ok "Recording failed: No usable audio or video files captured." :=
  C5_below_floor_amended
    ⟨"recordings", true, [("alice", [("audio", ⟨some "a.wav", none⟩),
      ("camera_t1", ⟨some "v.mkv", none⟩)])]⟩
    [("a.wav", List.replicate 44 0), ("v.mkv", List.replicate 1024 0)]
    ⟨[], none, true, "mix.wav", [], ComposeRes.timeout, "final.mp4"⟩
    ⟨[], none, false, "mix2.wav", [], ComposeRes.exitFail, "final2.mp4"⟩
    ⟨[], none, true, "mix3.wav", [], ComposeRes.timeout, "final3.mp4"⟩
    rfl (by decide)

end Meetly

namespace Meetly

theorem composeVideo_small_success (vs : List String) (au : Option String) (fs : Fs)
    (env : StopEnv) (bytes : List Nat)
    (hl : vs.length = 1 ∨ vs.length = 2)
    (hc : env.composeRes = ComposeRes.success bytes) :
    composeVideo vs au fs env
      = (.ok (some env.finalPath), fsWrite fs env.finalPath bytes) := by
  rw [composeVideo_small vs au fs env hl, hc]

theorem composeVideo_small_none (vs : List String) (au : Option String) (fs : Fs)
    (env : StopEnv)
    (hl : vs.length = 1 ∨ vs.length = 2)
    (hc : env.composeRes = ComposeRes.timeout ∨ env.composeRes = ComposeRes.exitFail) :
    composeVideo vs au fs env = (.ok none, fs) := by
  rw [composeVideo_small vs au fs env hl]
  rcases hc with hc | hc <;> rw [hc]

/-- Common outcome analysis for a stop whose body reaches composition with at
most two video inputs: every cleanup-list file is deleted, a successful
composition returns the artifact path and leaves the artifact on disk (when
its path is not among the intermediates), and a reported composition failure
returns "Composition failed.". -/
theorem stop_compose_outcomes (s : RMState) (fs fs1 : Fs) (env : StopEnv)
    (v : String) (vrest : List String) (au : Option String)
    (cleanup : List String) (mc : Bool)
    (hrec : s.is_recording = true)
    (hb : stopBody { s with is_recording := false } fs env =
      match composeVideo (v :: vrest) au fs1 env with
      | (.error e, fs2) =>
          ⟨.error e, { { s with is_recording := false } with active_recordings := [] },
            fs2, mc, true⟩
      | (.ok (some p), fs2) =>
          ⟨.ok p, { { s with is_recording := false } with active_recordings := [] },
            cleanup.foldl fsRemove fs2, mc, true⟩
      | (.ok none, fs2) =>
          ⟨.ok "Composition failed.",
            { { s with is_recording := false } with active_recordings := [] },
            cleanup.foldl fsRemove fs2, mc, true⟩)
    (hl : (v :: vrest).length = 1 ∨ (v :: vrest).length = 2)
    (hnoraise : ∀ e : PyExc, env.composeRes ≠ ComposeRes.raised e) :
    (∀ f ∈ cleanup, dictGet (stop_recording_and_compose s fs env).fs f = none)
    ∧ (∀ bytes, env.composeRes = ComposeRes.success bytes →
        (stop_recording_and_compose s fs env).result = Except.ok env.finalPath
        ∧ (env.finalPath ∉ cleanup →
            dictGet (stop_recording_and_compose s fs env).fs env.finalPath = some bytes))
    ∧ ((env.composeRes = ComposeRes.timeout ∨ env.composeRes = ComposeRes.exitFail) →
        (stop_recording_and_compose s fs env).result = Except.ok "Composition failed.") := by
  rw [stop_eq_of_recording s fs env hrec, hb]
  cases hcomp : env.composeRes with
  | raised e => exact absurd hcomp (hnoraise e)
  | success bytes =>
    rw [composeVideo_small_success (v :: vrest) au fs1 env bytes hl hcomp]
    refine ⟨?_, ?_, ?_⟩
    · intro f hf
      simp only [catchAll]
      rw [foldl_fsRemove_get]
      simp [hf]
    · intro bytes2 heq
      injection heq with hbb
      subst hbb
      refine ⟨by simp [catchAll], ?_⟩
      intro hnotin
      simp only [catchAll]
      rw [foldl_fsRemove_get, if_neg hnotin]
      exact dictGet_set_self fs1 env.finalPath bytes
    · intro hto
      rcases hto with h | h <;> simp at h
  | timeout =>
    rw [composeVideo_small_none (v :: vrest) au fs1 env hl (Or.inl hcomp)]
    refine ⟨?_, ?_, ?_⟩
    · intro f hf
      simp only [catchAll]
      rw [foldl_fsRemove_get]
      simp [hf]
    · intro bytes2 heq
      simp at heq
    · intro _
      simp [catchAll]
  | exitFail =>
    rw [composeVideo_small_none (v :: vrest) au fs1 env hl (Or.inr hcomp)]
    refine ⟨?_, ?_, ?_⟩
    · intro f hf
      simp only [catchAll]
      rw [foldl_fsRemove_get]
      simp [hf]
    · intro bytes2 heq
      simp at heq
    · intro _
      simp [catchAll]

end Meetly

namespace Meetly

set_option maxRecDepth 8192 in
/-- Claim C4 (counterexample): a stop sequence that reaches the composition
stage with three usable video files hits the missing-`math`-import
`NameError`, which skips the cleanup block entirely: the result is the
caught-exception string and all three intermediate video files remain on
disk. -/
theorem C4_cleanup_counterexample :
    stop_recording_and_compose
        ⟨"recordings", true,
          [("u1", [("camera_t1", ⟨some "v1.mkv", none⟩)]),
           ("u2", [("camera_t2", ⟨some "v2.mkv", none⟩),
                   ("screenshare_t3", ⟨some "v3.mkv", none⟩)])]⟩
        [("v1.mkv", List.replicate 1025 0), ("v2.mkv", List.replicate 1025 0),
         ("v3.mkv", List.replicate 1025 0)]
        ⟨[], none, true, "mix.wav", [], ComposeRes.success [9], "final.mp4"⟩
      = ⟨Except.ok (internalErrorMsg (PyExc.nameError "math")),
          ⟨"recordings", false, []⟩,
          [("v1.mkv", List.replicate 1025 0), ("v2.mkv", List.replicate 1025 0),
           ("v3.mkv", List.replicate 1025 0)], false, true⟩ := by
  decide

/-- Claim C4 (amended): for a stop sequence that reaches the composition
stage with at most two usable video inputs and whose composition subprocess
reports its outcome rather than raising, every intermediate file (per-track
audio and video, and the mixed-audio intermediate when several audio tracks
were mixed) is deleted whether composition produced the artifact or reported
failure, and the final artifact itself is never deleted. When composition
raises instead (as it does for three or more inputs via the missing `math`
import), the catch-all skips cleanup and the intermediates remain (see the
counterexample). -/
theorem C4_cleanup_amended (s : RMState) (fs : Fs) (env : StopEnv)
    (hrec : s.is_recording = true)
    (hvne : gatherVideo s fs ≠ [])
    (hlen : (gatherVideo s fs).length ≤ 2)
    (hmx : env.mixExc = none)
    (hnoraise : ∀ e : PyExc, env.composeRes ≠ ComposeRes.raised e)
    (hmerge : gatherAudio s fs = [] ∨ (gatherAudio s fs).length = 1 ∨ env.mixOk = true)
    (hfr1 : env.finalPath ∉ gatherAudio s fs)
    (hfr2 : env.finalPath ∉ gatherVideo s fs)
    (hfr3 : env.finalPath ≠ env.mixedPath) :
    (∀ f ∈ gatherAudio s fs ++ gatherVideo s fs,
        dictGet (stop_recording_and_compose s fs env).fs f = none)
    ∧ (2 ≤ (gatherAudio s fs).length →
        dictGet (stop_recording_and_compose s fs env).fs env.mixedPath = none)
    ∧ (∀ bytes, env.composeRes = ComposeRes.success bytes →
        (stop_recording_and_compose s fs env).result = Except.ok env.finalPath
        ∧ dictGet (stop_recording_and_compose s fs env).fs env.finalPath = some bytes)
    ∧ ((env.composeRes = ComposeRes.timeout ∨ env.composeRes = ComposeRes.exitFail) →
        (stop_recording_and_compose s fs env).result = Except.ok "Composition failed.") := by
  obtain ⟨v, vrest, hV⟩ : ∃ x xs, gatherVideo s fs = x :: xs := by
    cases hg : gatherVideo s fs with
    | nil => exact absurd hg hvne
    | cons x xs => exact ⟨x, xs, rfl⟩
  have hV2 : gatherVideo { s with is_recording := false } fs = v :: vrest := by
    rw [gatherVideo_flag]
    exact hV
  rw [hV] at hlen hfr2 ⊢
  have hl : (v :: vrest).length = 1 ∨ (v :: vrest).length = 2 := by
    cases vrest with
    | nil => exact Or.inl rfl
    | cons w ws =>
      cases ws with
      | nil => exact Or.inr rfl
      | cons _ _ =>
        simp only [List.length_cons] at hlen
        omega
  cases hga : gatherAudio s fs with
  | nil =>
    rw [hga] at hfr1
    have hga2 : gatherAudio { s with is_recording := false } fs = [] := by
      rw [gatherAudio_flag]
      exact hga
    have hb := stopBody_video_only _ fs env v vrest hga2 hV2
    have core := stop_compose_outcomes s fs fs env v vrest none
      (cleanupList [] (v :: vrest) none) false hrec hb hl hnoraise
    refine ⟨?_, ?_, ?_, core.2.2⟩
    · intro f hf
      exact core.1 f (mem_cleanupList_base [] (v :: vrest) none f hf)
    · intro h2
      simp at h2
    · intro bytes hcomp
      have hc := core.2.1 bytes hcomp
      refine ⟨hc.1, hc.2 ?_⟩
      exact not_mem_cleanupList [] (v :: vrest) none env.finalPath
        (by simp) hfr2 (by intro x hx; cases hx)
  | cons a arest =>
    rw [hga] at hfr1
    have hga2 : gatherAudio { s with is_recording := false } fs = a :: arest := by
      rw [gatherAudio_flag]
      exact hga
    cases arest with
    | nil =>
      have hb := stopBody_audio_video _ fs env a [] v vrest a fs hga2 hV2
        (merge_single a fs env)
      have core := stop_compose_outcomes s fs fs env v vrest (some a)
        (cleanupList [a] (v :: vrest) (some a)) true hrec hb hl hnoraise
      refine ⟨?_, ?_, ?_, core.2.2⟩
      · intro f hf
        exact core.1 f (mem_cleanupList_base [a] (v :: vrest) (some a) f hf)
      · intro h2
        simp at h2
      · intro bytes hcomp
        have hc := core.2.1 bytes hcomp
        refine ⟨hc.1, hc.2 ?_⟩
        refine not_mem_cleanupList [a] (v :: vrest) (some a) env.finalPath hfr1 hfr2 ?_
        intro x hx
        injection hx with hx2
        subst hx2
        intro hfa
        exact hfr1 (by rw [hfa]; exact List.mem_singleton_self a)
    | cons b brest =>
      have hmok : env.mixOk = true := by
        rcases hmerge with h | h | h
        · rw [hga] at h
          simp at h
        · rw [hga] at h
          simp only [List.length_cons] at h
          omega
        · exact h
      have hb := stopBody_audio_video _ fs env a (b :: brest) v vrest env.mixedPath
        (fsWrite fs env.mixedPath env.mixedBytes) hga2 hV2
        (merge_multi_ok a b brest fs env hmx hmok)
      have core := stop_compose_outcomes s fs
        (fsWrite fs env.mixedPath env.mixedBytes) env v vrest (some env.mixedPath)
        (cleanupList (a :: b :: brest) (v :: vrest) (some env.mixedPath)) true
        hrec hb hl hnoraise
      refine ⟨?_, ?_, ?_, core.2.2⟩
      · intro f hf
        exact core.1 f
          (mem_cleanupList_base (a :: b :: brest) (v :: vrest) (some env.mixedPath) f hf)
      · intro _
        exact core.1 env.mixedPath
          (mixed_mem_cleanupList (a :: b :: brest) (v :: vrest) env.mixedPath)
      · intro bytes hcomp
        have hc := core.2.1 bytes hcomp
        refine ⟨hc.1, hc.2 ?_⟩
        refine not_mem_cleanupList (a :: b :: brest) (v :: vrest) (some env.mixedPath)
          env.finalPath hfr1 hfr2 ?_
        intro x hx
        injection hx with hx2
        subst hx2
        exact hfr3

end Meetly

namespace Meetly

set_option maxRecDepth 8192 in
/-- Witness for the amended C4: one usable audio file and two usable video
files, with a successful composition. -/
theorem C4_cleanup_amended_witness :
    (∀ f ∈ gatherAudio
          ⟨"recordings", true, [("alice", [("audio", ⟨some "a.wav", none⟩),
            ("camera_t1", ⟨some "v1.mkv", none⟩),
            ("screenshare_t2", ⟨some "v2.mkv", none⟩)])]⟩
          [("a.wav", List.replicate 100 1), ("v1.mkv", List.replicate 1025 2),
           ("v2.mkv", List.replicate 1025 3)]
        ++ gatherVideo
          ⟨"recordings", true, [("alice", [("audio", ⟨some "a.wav", none⟩),
            ("camera_t1", ⟨some "v1.mkv", none⟩),
            ("screenshare_t2", ⟨some "v2.mkv", none⟩)])]⟩
          [("a.wav", List.replicate 100 1), ("v1.mkv", List.replicate 1025 2),
           ("v2.mkv", List.replicate 1025 3)],
        dictGet (stop_recording_and_compose
          ⟨"recordings", true, [("alice", [("audio", ⟨some "a.wav", none⟩),
            ("camera_t1", ⟨some "v1.mkv", none⟩),
            ("screenshare_t2", ⟨some "v2.mkv", none⟩)])]⟩
          [("a.wav", List.replicate 100 1), ("v1.mkv", List.replicate 1025 2),
           ("v2.mkv", List.replicate 1025 3)]
          ⟨[], none, true, "mix.wav", [], ComposeRes.success [9, 9], "final.mp4"⟩).fs f
          = none)
    ∧ (2 ≤ (gatherAudio
          ⟨"recordings", true, [("alice", [("audio", ⟨some "a.wav", none⟩),
            ("camera_t1", ⟨some "v1.mkv", none⟩),
            ("screenshare_t2", ⟨some "v2.mkv", none⟩)])]⟩
          [("a.wav", List.replicate 100 1), ("v1.mkv", List.replicate 1025 2),
           ("v2.mkv", List.replicate 1025 3)]).length →
        dictGet (stop_recording_and_compose
          ⟨"recordings", true, [("alice", [("audio", ⟨some "a.wav", none⟩),
            ("camera_t1", ⟨some "v1.mkv", none⟩),
            ("screenshare_t2", ⟨some "v2.mkv", none⟩)])]⟩
          [("a.wav", List.replicate 100 1), ("v1.mkv", List.replicate 1025 2),
           ("v2.mkv", List.replicate 1025 3)]
          ⟨[], none, true, "mix.wav", [], ComposeRes.success [9, 9], "final.mp4"⟩).fs
          "mix.wav" = none)
    ∧ (∀ bytes, ComposeRes.success [9, 9] = ComposeRes.success bytes →
        (stop_recording_and_compose
          ⟨"recordings", true, [("alice", [("audio", ⟨some "a.wav", none⟩),
            ("camera_t1", ⟨some "v1.mkv", none⟩),
            ("screenshare_t2", ⟨some "v2.mkv", none⟩)])]⟩
          [("a.wav", List.replicate 100 1), ("v1.mkv", List.replicate 1025 2),
           ("v2.mkv", List.replicate 1025 3)]
          ⟨[], none, true, "mix.wav", [], ComposeRes.success [9, 9], "final.mp4"⟩).result
          = Except.ok "final.mp4"
        ∧ dictGet (stop_recording_and_compose
          ⟨"recordings", true, [("alice", [("audio", ⟨some "a.wav", none⟩),
            ("camera_t1", ⟨some "v1.mkv", none⟩),
            ("screenshare_t2", ⟨some "v2.mkv", none⟩)])]⟩
          [("a.wav", List.replicate 100 1), ("v1.mkv", List.replicate 1025 2),
           ("v2.mkv", List.replicate 1025 3)]
          ⟨[], none, true, "mix.wav", [], ComposeRes.success [9, 9], "final.mp4"⟩).fs
          "final.mp4" = some bytes)
    ∧ ((ComposeRes.success [9, 9] = ComposeRes.timeout
        ∨ ComposeRes.success [9, 9] = ComposeRes.exitFail) →
        (stop_recording_and_compose
          ⟨"recordings", true, [("alice", [("audio", ⟨some "a.wav", none⟩),
            ("camera_t1", ⟨some "v1.mkv", none⟩),
            ("screenshare_t2", ⟨some "v2.mkv", none⟩)])]⟩
          [("a.wav", List.replicate 100 1), ("v1.mkv", List.replicate 1025 2),
           ("v2.mkv", List.replicate 1025 3)]
          ⟨[], none, true, "mix.wav", [], ComposeRes.success [9, 9], "final.mp4"⟩).result
          = Except.ok "Composition failed.") :=
  C4_cleanup_amended
    ⟨"recordings", true, [("alice", [("audio", ⟨some "a.wav", none⟩),
      ("camera_t1", ⟨some "v1.mkv", none⟩),
      ("screenshare_t2", ⟨some "v2.mkv", none⟩)])]⟩
    [("a.wav", List.replicate 100 1), ("v1.mkv", List.replicate 1025 2),
     ("v2.mkv", List.replicate 1025 3)]
    ⟨[], none, true, "mix.wav", [], ComposeRes.success [9, 9], "final.mp4"⟩
    rfl (by decide) (by decide) rfl (fun e h => ComposeRes.noConfusion h)
    (Or.inr (Or.inl (by decide))) (by decide) (by decide) (by decide)

end Meetly
